import Mathlib

/-!
Shallow embedding of pyserial's loopback URL handler
(serial/urlhandler/protocol_loop.py) together with proofs about its
operations.  The queue is a Python queue.Queue holding either single
bytes (enqueued by write) or a None sentinel; it is modelled as a
List (Option Nat).  Real time is abstracted: sleep durations are
reported as rational numbers in results, and the per-iteration
deadline test of read (time.time() > timeout) is an oracle argument.
All operations are single-threaded: no other thread touches the
queue while an operation runs.
-/

namespace LoopSerial

/-- Parsed form of the port URL: the scheme produced by urlsplit and the
option list produced by parse_qs with keep_blank_values=True (each option
maps to the nonempty list of its values, in order). -/
structure URLParts where
  scheme : String
  query : List (String × List String)
deriving Repr, DecidableEq

/-- Python exceptions that the module can raise, by raise site:
notOpen is portNotOpenError; addressFormat is the SerialException raised
by fromURL for a bad scheme or unknown option; keyError is the uncaught
KeyError from LOGGER_LEVELS[values[0]]; alreadyOpen and portNotConfigured
are the two SerialException raises in open(); invalidBaudrate is the
ValueError from _reconfigurePort. -/
inductive SerErr where
  | notOpen
  | addressFormat
  | keyError (k : String)
  | alreadyOpen
  | portNotConfigured
  | invalidBaudrate
deriving Repr, DecidableEq

/-- State of one loop:// channel: the fields of the Serial object that the
modelled operations touch.  queue entries are some b for a byte b and
none for the sentinel pushed by the shadowed close.  capacity is
buffer_size (4096 after __init__); logger holds the configured logging
level once the logging option set it; port is the parsed URL or none when
unconfigured; timeout and writeTimeout are _timeout and _writeTimeout in
seconds (none means block forever). -/
structure LoopState where
  isOpen : Bool
  queue : List (Option Nat)
  capacity : Nat
  logger : Option Nat
  port : Option URLParts
  baudrate : Int
  timeout : Option Rat
  writeTimeout : Option Rat
  rts_state : Bool
  dtr_state : Bool
deriving Repr, DecidableEq

/-- LOGGER_LEVELS dictionary lookup: the four levels of the logging
module; none models a KeyError on any other key. -/
def LOGGER_LEVELS (s : String) : Option Nat :=
  if s = "debug" then some 10
  else if s = "info" then some 20
  else if s = "warning" then some 30
  else if s = "error" then some 40
  else none

/-- Option-processing loop of fromURL.  Each item is handled in order,
mutating self as it goes; the logging option assigns the logger and sets
its level from LOGGER_LEVELS (an unknown level raises KeyError, which the
surrounding except ValueError does NOT catch); any other option raises
ValueError, which the except clause converts to the address-format
SerialException.  Returns the raised error (if any) together with the
state reached. -/
def applyOptions (s : LoopState) : List (String × List String) → Option SerErr × LoopState
  | [] => (none, s)
  | (opt, vals) :: rest =>
    if opt = "logging" then
      match LOGGER_LEVELS (vals.headD "") with
      | some lvl => applyOptions { s with logger := some lvl } rest
      | none => (some (SerErr.keyError (vals.headD "")), s)
    else
      (some SerErr.addressFormat, s)

/-- fromURL: rejects any scheme other than loop with the address-format
SerialException, then processes the query options. -/
def fromURL (s : LoopState) (u : URLParts) : Option SerErr × LoopState :=
  if u.scheme = "loop" then applyOptions s u.query
  else (some SerErr.addressFormat, s)

/-- open(): raises if already open; otherwise FIRST resets logger to None
and replaces the queue by a fresh empty Queue(buffer_size), and only THEN
checks that a port is configured.  On a configured port it applies the
URL options, validates the baudrate (_reconfigurePort), marks the port
open and drains both buffers. -/
def openPort (s : LoopState) : Option SerErr × LoopState :=
  if s.isOpen then (some SerErr.alreadyOpen, s)
  else
    let s1 := { s with logger := none, queue := [] }
    match s1.port with
    | none => (some SerErr.portNotConfigured, s1)
    | some u =>
      match fromURL s1 u with
      | (some e, s2) => (some e, s2)
      | (none, s2) =>
        if 0 < s2.baudrate ∧ s2.baudrate < 2 ^ 32 then
          (none, { s2 with isOpen := true, queue := [] })
        else (some SerErr.invalidBaudrate, s2)

/-- close(): the method Python actually binds, i.e. the SECOND definition
of close in the class body (lines 94-99), which shadows the first.  It
only clears _isOpen and sleeps 0.3 s; it does not touch the queue. -/
def close (s : LoopState) : LoopState :=
  if s.isOpen then { s with isOpen := false } else s

/-- closeShadowed: the FIRST definition of close in the class body
(lines 79-81), dead code because the second definition rebinds the name.
It would push the None sentinel and then call the superclass close.
Modelled from the spec: the superclass close (serial.serialutil, not in
src/) transitions the port to CLOSED. -/
def closeShadowed (s : LoopState) : LoopState :=
  { s with queue := s.queue ++ [none], isOpen := false }

/-- in_waiting property: requires the port open, then returns
queue.qsize(), the number of entries currently in the queue. -/
def in_waiting (s : LoopState) : Except SerErr Nat :=
  if !s.isOpen then Except.error SerErr.notOpen
  else Except.ok s.queue.length

/-- Result of the read loop: ok carries the bytes collected and the queue
left behind; blocked models queue.get waiting forever (empty queue, no
timeout, no producer); typeError models bytearray += None after a
sentinel is dequeued. -/
inductive ReadOutcome where
  | ok (data : List Nat) (q : List (Option Nat))
  | blocked
  | typeError
deriving Repr, DecidableEq

/-- While-loop body of read.  Arguments: the read timeout, the deadline
oracle (whether time.time() > timeout held after the i-th successful
get; with a zero timeout it is physically always true), the oracle index,
the remaining size, the queue, the bytes collected so far.  With no
timeout an empty queue blocks forever; with a timeout queue.get gives up
(queue.Empty) and the loop breaks, returning the partial data. -/
def readLoop (tmo : Option Rat) (oracle : Nat → Bool) :
    Nat → Nat → List (Option Nat) → List Nat → ReadOutcome
  | _, 0, q, acc => ReadOutcome.ok acc q
  | _, _ + 1, [], acc =>
    match tmo with
    | none => ReadOutcome.blocked
    | some _ => ReadOutcome.ok acc []
  | _, _ + 1, none :: _, _ => ReadOutcome.typeError
  | i, size + 1, some b :: rest, acc =>
    match tmo with
    | none => readLoop tmo oracle (i + 1) size rest (acc ++ [b])
    | some _ =>
      if oracle i then ReadOutcome.ok (acc ++ [b]) rest
      else readLoop tmo oracle (i + 1) size rest (acc ++ [b])

/-- read(size): requires the port open, then runs the collection loop
with the configured _timeout. -/
def read (s : LoopState) (oracle : Nat → Bool) (size : Nat) : Except SerErr ReadOutcome :=
  if !s.isOpen then Except.error SerErr.notOpen
  else Except.ok (readLoop s.timeout oracle 0 size s.queue [])

/-- Result of enqueueing the bytes of a write one by one with
queue.put(byte, timeout=writeTimeout): ok when all fit; full when the
queue hit capacity and put raised queue.Full after waiting the write
timeout; blocked when put waits forever (no write timeout, queue full,
no consumer). -/
inductive PutResult where
  | ok (q : List (Option Nat))
  | full (q : List (Option Nat))
  | blocked (q : List (Option Nat))
deriving Repr, DecidableEq

/-- The for-loop of write: put each byte, appending while qsize is below
capacity. -/
def putAll (cap : Nat) (wt : Option Rat) : List Nat → List (Option Nat) → PutResult
  | [], q => PutResult.ok q
  | b :: rest, q =>
    if q.length < cap then putAll cap wt rest (q ++ [some b])
    else
      match wt with
      | none => PutResult.blocked q
      | some _ => PutResult.full q

/-- Observable result of write: what it returned or raised, how long it
slept, and the state afterwards. -/
inductive WriteOutcome where
  | ok (n : Nat)
  | notOpen
  | timeoutErr
  | fullErr
  | blocked
deriving Repr, DecidableEq

structure WriteResult where
  outcome : WriteOutcome
  slept : Rat
  state : LoopState
deriving Repr, DecidableEq

/-- write(data): requires the port open; computes the advisory transmit
time 10.0*len(data)/baudrate; if a write timeout is configured and the
advisory time strictly exceeds it, sleeps for the write timeout and
raises writeTimeoutError without enqueueing anything; otherwise enqueues
the bytes one by one and returns len(data). -/
def write (s : LoopState) (data : List Nat) : WriteResult :=
  if !s.isOpen then ⟨WriteOutcome.notOpen, 0, s⟩
  else
    let t : Rat := 10 * (data.length : Rat) / (s.baudrate : Rat)
    match s.writeTimeout with
    | some w =>
      if t > w then ⟨WriteOutcome.timeoutErr, w, s⟩
      else
        match putAll s.capacity (some w) data s.queue with
        | PutResult.ok q => ⟨WriteOutcome.ok data.length, 0, { s with queue := q }⟩
        | PutResult.full q => ⟨WriteOutcome.fullErr, w, { s with queue := q }⟩
        | PutResult.blocked q => ⟨WriteOutcome.blocked, 0, { s with queue := q }⟩
    | none =>
      match putAll s.capacity none data s.queue with
      | PutResult.ok q => ⟨WriteOutcome.ok data.length, 0, { s with queue := q }⟩
      | PutResult.full q => ⟨WriteOutcome.fullErr, 0, { s with queue := q }⟩
      | PutResult.blocked q => ⟨WriteOutcome.blocked, 0, { s with queue := q }⟩

/-- reset_input_buffer: requires the port open, then drains the shared
queue with get_nowait until qsize is zero. -/
def reset_input_buffer (s : LoopState) : Except SerErr LoopState :=
  if !s.isOpen then Except.error SerErr.notOpen
  else Except.ok { s with queue := [] }

/-- reset_output_buffer: requires the port open, then drains the same
shared queue with get_nowait until qsize is zero. -/
def reset_output_buffer (s : LoopState) : Except SerErr LoopState :=
  if !s.isOpen then Except.error SerErr.notOpen
  else Except.ok { s with queue := [] }

/-- cts property: requires the port open, then mirrors the local RTS
state. -/
def cts (s : LoopState) : Except SerErr Bool :=
  if !s.isOpen then Except.error SerErr.notOpen
  else Except.ok s.rts_state

/-- dsr property: mirrors the local DTR state.  NOTE: unlike every other
query in the class, the source has no open-check here. -/
def dsr (s : LoopState) : Except SerErr Bool :=
  Except.ok s.dtr_state

/-- ri property: requires the port open, then returns the dummy False. -/
def ri (s : LoopState) : Except SerErr Bool :=
  if !s.isOpen then Except.error SerErr.notOpen
  else Except.ok false

/-- cd property: requires the port open, then returns the dummy True. -/
def cd (s : LoopState) : Except SerErr Bool :=
  if !s.isOpen then Except.error SerErr.notOpen
  else Except.ok true

/-! Sample channel states used for concrete evaluations. -/

/-- An open loop:// channel with an empty queue, no timeouts, and default
settings. -/
def sampleOpen : LoopState :=
  { isOpen := true, queue := [], capacity := 4096, logger := none,
    port := some ⟨"loop", []⟩, baudrate := 9600, timeout := none,
    writeTimeout := none, rts_state := true, dtr_state := true }

/-- A closed channel (as after close()) whose DTR line was left asserted
and whose queue still holds one stale byte. -/
def sampleClosed : LoopState :=
  { isOpen := false, queue := [some 65], capacity := 4096, logger := some 10,
    port := some ⟨"loop", []⟩, baudrate := 9600, timeout := none,
    writeTimeout := none, rts_state := true, dtr_state := true }

/-! Helper lemmas. -/

/-- When q.length + d.length fits in the capacity, putAll appends the
bytes of d to the queue in order and succeeds. -/
theorem putAll_ok (cap : Nat) (wt : Option Rat) (d : List Nat) :
    ∀ q : List (Option Nat), q.length + d.length ≤ cap →
      putAll cap wt d q = PutResult.ok (q ++ d.map Option.some) := by
  induction d with
  | nil => intro q _; simp [putAll]
  | cons b rest ih =>
    intro q hlen
    have hq : q.length < cap := by
      simp only [List.length_cons] at hlen; omega
    have hrest : (q ++ [some b]).length + rest.length ≤ cap := by
      simp only [List.length_append, List.length_cons, List.length_nil,
        List.length_cons] at hlen ⊢
      omega
    simp only [putAll, if_pos hq, ih (q ++ [some b]) hrest, List.map_cons,
      List.append_assoc, List.singleton_append]

/-- With no read timeout and a queue of exactly d.length bytes, the read
loop collects all of them in order and leaves the queue empty. -/
theorem readLoop_exact (oracle : Nat → Bool) (d : List Nat) :
    ∀ (i : Nat) (acc : List Nat),
      readLoop none oracle i d.length (d.map Option.some) acc =
        ReadOutcome.ok (acc ++ d) [] := by
  induction d with
  | nil => intro i acc; simp [readLoop]
  | cons b rest ih =>
    intro i acc
    simp only [List.length_cons, List.map_cons, readLoop, ih (i + 1) (acc ++ [b]),
      List.append_assoc, List.singleton_append]

/-- With a finite read timeout and a queue holding only bytes (no
sentinel), the read loop always terminates normally with some collected
data. -/
theorem readLoop_finite_ok (oracle : Nat → Bool) (t : Rat) (n : Nat) :
    ∀ (q : List (Option Nat)) (i : Nat) (acc : List Nat),
      (∀ e ∈ q, e ≠ none) →
      ∃ data rem, readLoop (some t) oracle i n q acc = ReadOutcome.ok data rem := by
  induction n with
  | zero => intro q i acc _; exact ⟨acc, q, rfl⟩
  | succ m ih =>
    intro q i acc hq
    match q with
    | [] => exact ⟨acc, [], rfl⟩
    | none :: rest => exact absurd rfl (hq none (List.mem_cons_self _ _))
    | some b :: rest =>
      by_cases ho : oracle i
      · exact ⟨acc ++ [b], rest, by simp [readLoop, ho]⟩
      · obtain ⟨data, rem, hd⟩ :=
          ih rest (i + 1) (acc ++ [b]) (fun e he => hq e (List.mem_cons_of_mem _ he))
        exact ⟨data, rem, by simp [readLoop, ho, hd]⟩

/-! Claim theorems. -/

/-- C1: the close method that Python actually binds (the second
definition, which shadows the sentinel-pushing first one) marks an open
channel closed without enqueueing any sentinel: the queue is exactly as
it was.  A reader blocked in read with no timeout is therefore never
woken through the dequeue path, contrary to the spec. -/
theorem close_pushes_no_sentinel (s : LoopState) (h : s.isOpen = true) :
    (close s).queue = s.queue ∧ (close s).isOpen = false ∧
      close s ≠ closeShadowed s := by
  refine ⟨by simp [close, h], by simp [close, h], ?_⟩
  intro hc
  have : (close s).queue = (closeShadowed s).queue := by rw [hc]
  simp [close, h, closeShadowed] at this

/-- Witness for C1 at a concrete open state. -/
theorem close_pushes_no_sentinel_w :
    (close sampleOpen).queue = sampleOpen.queue ∧
      (close sampleOpen).isOpen = false ∧
      close sampleOpen ≠ closeShadowed sampleOpen :=
  close_pushes_no_sentinel sampleOpen rfl

/-- C2 counterexample: on a concrete closed channel, the dsr query does
not raise the not-open error; it returns the DTR state, so the claim that
dsr fails with NotOpenError whenever is_open is false is wrong. -/
theorem dsr_closed_returns_value :
    sampleClosed.isOpen = false ∧
      dsr sampleClosed = Except.ok true ∧
      dsr sampleClosed ≠ Except.error SerErr.notOpen := by
  refine ⟨rfl, rfl, ?_⟩
  intro hc
  exact Except.noConfusion hc

/-- C2 amended: with is_open false, read, write, in_waiting, both buffer
resets and cts all fail with the not-open error, but dsr does not: it
returns the DTR state without requiring the channel to be open. -/
theorem closed_ops_raise_notOpen (s : LoopState) (oracle : Nat → Bool)
    (n : Nat) (d : List Nat) (h : s.isOpen = false) :
    read s oracle n = Except.error SerErr.notOpen ∧
      (write s d).outcome = WriteOutcome.notOpen ∧
      in_waiting s = Except.error SerErr.notOpen ∧
      reset_input_buffer s = Except.error SerErr.notOpen ∧
      reset_output_buffer s = Except.error SerErr.notOpen ∧
      cts s = Except.error SerErr.notOpen ∧
      dsr s = Except.ok s.dtr_state := by
  refine ⟨?_, ?_, ?_, ?_, ?_, ?_, rfl⟩ <;>
    simp [read, write, in_waiting, reset_input_buffer, reset_output_buffer, cts, h]

/-- Witness for the amended C2 at a concrete closed state. -/
theorem closed_ops_raise_notOpen_w :
    read sampleClosed (fun _ => true) 1 = Except.error SerErr.notOpen ∧
      (write sampleClosed [65]).outcome = WriteOutcome.notOpen ∧
      in_waiting sampleClosed = Except.error SerErr.notOpen ∧
      reset_input_buffer sampleClosed = Except.error SerErr.notOpen ∧
      reset_output_buffer sampleClosed = Except.error SerErr.notOpen ∧
      cts sampleClosed = Except.error SerErr.notOpen ∧
      dsr sampleClosed = Except.ok sampleClosed.dtr_state :=
  closed_ops_raise_notOpen sampleClosed (fun _ => true) 1 [65] rfl

/-- C3 counterexample: opening a channel configured with the address
loop://?logging=bogus raises the uncaught KeyError from the
LOGGER_LEVELS lookup, not the address-format SerialException the claim
names. -/
theorem open_bogus_logging_keyError :
    (openPort { sampleClosed with
        port := some ⟨"loop", [("logging", ["bogus"])]⟩ }).1 =
      some (SerErr.keyError "bogus") ∧
    (openPort { sampleClosed with
        port := some ⟨"loop", [("logging", ["bogus"])]⟩ }).1 ≠
      some SerErr.addressFormat := by
  refine ⟨rfl, ?_⟩; decide

/-- C3 amended: an unrecognized logging value still fails at
configuration time, but with a KeyError (the except ValueError clause
does not catch it); the address-format error is raised for an unknown
option and for a scheme other than loop. -/
theorem open_bad_logging_amended (s : LoopState) (v opt : String)
    (h : s.isOpen = false) (hv : LOGGER_LEVELS v = none)
    (hopt : opt ≠ "logging") :
    (openPort { s with port := some ⟨"loop", [("logging", [v])]⟩ }).1 =
      some (SerErr.keyError v) ∧
    (openPort { s with port := some ⟨"loop", [(opt, ["1"])]⟩ }).1 =
      some SerErr.addressFormat ∧
    (openPort { s with port := some ⟨"ftp", []⟩ }).1 =
      some SerErr.addressFormat := by
  refine ⟨?_, ?_, ?_⟩ <;>
    simp [openPort, fromURL, applyOptions, h, hv, hopt]

/-- Witness for the amended C3 at concrete inputs. -/
theorem open_bad_logging_amended_w :
    (openPort { sampleClosed with
        port := some ⟨"loop", [("logging", ["bogus"])]⟩ }).1 =
      some (SerErr.keyError "bogus") ∧
    (openPort { sampleClosed with
        port := some ⟨"loop", [("unknown", ["1"])]⟩ }).1 =
      some SerErr.addressFormat ∧
    (openPort { sampleClosed with port := some ⟨"ftp", []⟩ }).1 =
      some SerErr.addressFormat :=
  open_bad_logging_amended sampleClosed "bogus" "unknown" rfl rfl (by decide)

/-- C4 counterexample: on a concrete closed channel the ring-indicator
query raises the not-open error instead of returning False, so the claim
that the ring and carrier queries work in every channel state is wrong. -/
theorem ri_closed_raises :
    sampleClosed.isOpen = false ∧
      ri sampleClosed = Except.error SerErr.notOpen ∧
      ri sampleClosed ≠ Except.ok false ∧
      cd sampleClosed = Except.error SerErr.notOpen := by
  refine ⟨rfl, rfl, ?_, rfl⟩
  intro hc
  exact Except.noConfusion hc

/-- C4 amended: on every OPEN channel, whatever the local control-line
settings, ri returns False and cd returns True; both queries carry the
same open-check as the rest of the class and raise the not-open error on
a closed channel. -/
theorem ri_cd_dummies_when_open (s : LoopState) (h : s.isOpen = true) :
    ri s = Except.ok false ∧ cd s = Except.ok true := by
  constructor <;> simp [ri, cd, h]

/-- Witness for the amended C4 at a concrete open state. -/
theorem ri_cd_dummies_when_open_w :
    ri sampleOpen = Except.ok false ∧ cd sampleOpen = Except.ok true :=
  ri_cd_dummies_when_open sampleOpen rfl

/-- C5: on an open channel with a finite write timeout, when the advisory
transmit duration 10*len(d)/baudrate strictly exceeds the timeout, write
sleeps exactly the write timeout, raises the write-timeout error, and
leaves the state (in particular the queue) untouched. -/
theorem write_timeout_exceeded (s : LoopState) (d : List Nat) (w : Rat)
    (ho : s.isOpen = true) (hw : s.writeTimeout = some w)
    (ht : 10 * (d.length : Rat) / (s.baudrate : Rat) > w) :
    write s d = ⟨WriteOutcome.timeoutErr, w, s⟩ := by
  simp [write, ho, hw, ht]

/-- Witness for C5: a one-byte write at 9600 baud against a 1 ms write
timeout (advisory duration 10/9600 s exceeds 1/1000 s). -/
theorem write_timeout_exceeded_w :
    write { sampleOpen with writeTimeout := some (1 / 1000) } [65] =
      ⟨WriteOutcome.timeoutErr, 1 / 1000,
        { sampleOpen with writeTimeout := some (1 / 1000) }⟩ :=
  write_timeout_exceeded _ [65] (1 / 1000) rfl rfl (by norm_num [sampleOpen])

/-- C6: on an open channel with an empty queue, no timeouts, and capacity
at least len(d1)+len(d2), two successive writes of d1 and d2 both succeed
and a read of len(d1)+len(d2) bytes returns exactly d1 ++ d2, draining
the queue: the loopback preserves FIFO order. -/
theorem write_write_read_fifo (s : LoopState) (d1 d2 : List Nat)
    (oracle : Nat → Bool) (ho : s.isOpen = true) (hq : s.queue = [])
    (htmo : s.timeout = none) (hwt : s.writeTimeout = none)
    (hcap : d1.length + d2.length ≤ s.capacity) :
    (write s d1).outcome = WriteOutcome.ok d1.length ∧
      (write (write s d1).state d2).outcome = WriteOutcome.ok d2.length ∧
      read (write (write s d1).state d2).state oracle (d1.length + d2.length) =
        Except.ok (ReadOutcome.ok (d1 ++ d2) []) := by
  have hput1 : putAll s.capacity none d1 s.queue = PutResult.ok (d1.map Option.some) := by
    rw [hq]
    simpa using putAll_ok s.capacity none d1 []
      (by simpa using le_trans (Nat.le_add_right _ _) hcap)
  have h1 : write s d1 =
      ⟨WriteOutcome.ok d1.length, 0, { s with queue := d1.map Option.some }⟩ := by
    simp [write, ho, hwt, hput1]
  have hput2 : putAll s.capacity none d2 (d1.map Option.some) =
      PutResult.ok ((d1 ++ d2).map Option.some) := by
    simpa using putAll_ok s.capacity none d2 (d1.map Option.some) (by simpa using hcap)
  have h2 : write { s with queue := d1.map Option.some } d2 =
      ⟨WriteOutcome.ok d2.length, 0, { s with queue := (d1 ++ d2).map Option.some }⟩ := by
    simp [write, ho, hwt, hput2]
  refine ⟨by rw [h1], by rw [h1, h2], ?_⟩
  rw [h1, h2]
  have h4 : readLoop none oracle 0 (d1.length + d2.length)
      (List.map Option.some d1 ++ List.map Option.some d2) [] =
      ReadOutcome.ok (d1 ++ d2) [] := by
    simpa [List.length_append] using readLoop_exact oracle (d1 ++ d2) 0 []
  simp [read, ho, htmo, h4]

/-- Witness for C6: writing the single byte 1, then the bytes 2 and 3,
and reading three bytes back from a fresh open channel. -/
theorem write_write_read_fifo_w :
    (write sampleOpen [1]).outcome = WriteOutcome.ok ([1] : List Nat).length ∧
      (write (write sampleOpen [1]).state [2, 3]).outcome =
        WriteOutcome.ok ([2, 3] : List Nat).length ∧
      read (write (write sampleOpen [1]).state [2, 3]).state (fun _ => true)
          (([1] : List Nat).length + ([2, 3] : List Nat).length) =
        Except.ok (ReadOutcome.ok ([1] ++ [2, 3]) []) :=
  write_write_read_fifo sampleOpen [1] [2, 3] (fun _ => true) rfl rfl rfl rfl
    (by decide)

/-- C7: on an open channel with a finite read timeout, a read over an
empty queue returns the empty byte string (in particular with timeout 0,
the non-blocking poll), and in general any read over a queue holding only
bytes terminates normally with whatever data it collected, never raising
for coming up short. -/
theorem read_partial_returns_data (s : LoopState) (oracle : Nat → Bool)
    (n : Nat) (t : Rat) (ho : s.isOpen = true) (htmo : s.timeout = some t)
    (hbytes : ∀ e ∈ s.queue, e ≠ none) :
    (s.queue = [] → read s oracle n = Except.ok (ReadOutcome.ok [] [])) ∧
      ∃ data rem, read s oracle n = Except.ok (ReadOutcome.ok data rem) := by
  constructor
  · intro hq
    cases n with
    | zero => simp [read, ho, htmo, hq, readLoop]
    | succ m => simp [read, ho, htmo, hq, readLoop]
  · obtain ⟨data, rem, hd⟩ := readLoop_finite_ok oracle t n s.queue 0 [] hbytes
    exact ⟨data, rem, by simp [read, ho, htmo, hd]⟩

/-- Witness for C7: a five-byte read with timeout 0 on an empty queue. -/
theorem read_partial_returns_data_w :
    read { sampleOpen with timeout := some 0 } (fun _ => true) 5 =
      Except.ok (ReadOutcome.ok [] []) :=
  (read_partial_returns_data { sampleOpen with timeout := some 0 }
    (fun _ => true) 5 0 rfl rfl (by simp [sampleOpen])).1 rfl

/-- C8: on an open channel with an empty queue, no timeouts, and enough
capacity, write(d) returns len(d) and in_waiting immediately afterwards
reports len(d). -/
theorem write_then_in_waiting (s : LoopState) (d : List Nat)
    (ho : s.isOpen = true) (hq : s.queue = []) (_htmo : s.timeout = none)
    (hwt : s.writeTimeout = none) (hcap : d.length ≤ s.capacity) :
    (write s d).outcome = WriteOutcome.ok d.length ∧
      in_waiting (write s d).state = Except.ok d.length := by
  have hput : putAll s.capacity none d s.queue = PutResult.ok (d.map Option.some) := by
    rw [hq]; simpa using putAll_ok s.capacity none d [] (by simpa using hcap)
  have h1 : write s d =
      ⟨WriteOutcome.ok d.length, 0, { s with queue := d.map Option.some }⟩ := by
    simp [write, ho, hwt, hput]
  rw [h1]
  exact ⟨rfl, by simp [in_waiting, ho]⟩

/-- Witness for C8: writing three bytes on a fresh open channel. -/
theorem write_then_in_waiting_w :
    (write sampleOpen [1, 2, 3]).outcome =
        WriteOutcome.ok ([1, 2, 3] : List Nat).length ∧
      in_waiting (write sampleOpen [1, 2, 3]).state =
        Except.ok ([1, 2, 3] : List Nat).length :=
  write_then_in_waiting sampleOpen [1, 2, 3] rfl rfl rfl rfl (by decide)

/-- C9: reset_input_buffer and reset_output_buffer are the same function
on every channel state: both drain the single shared queue (and both
raise the not-open error on a closed channel), so either call yields the
identical resulting state. -/
theorem resets_have_same_effect (s : LoopState) :
    reset_input_buffer s = reset_output_buffer s := rfl

/-- C10: open() on a closed, unconfigured channel raises the
port-not-configured error only after having already replaced the queue
with a fresh empty one and reset the logger to None, so buffered contents
from a prior session are discarded even though the open reports
failure. -/
theorem open_unconfigured_clears_state (s : LoopState)
    (hc : s.isOpen = false) (hp : s.port = none) :
    (openPort s).1 = some SerErr.portNotConfigured ∧
      (openPort s).2.queue = [] ∧ (openPort s).2.logger = none := by
  refine ⟨?_, ?_, ?_⟩ <;> simp [openPort, hc, hp]

/-- Witness for C10: a closed unconfigured channel whose queue still held
a byte and whose logger was set loses both. -/
theorem open_unconfigured_clears_state_w :
    (openPort { sampleClosed with port := none }).1 =
        some SerErr.portNotConfigured ∧
      (openPort { sampleClosed with port := none }).2.queue = [] ∧
      (openPort { sampleClosed with port := none }).2.logger = none :=
  open_unconfigured_clears_state _ rfl rfl

end LoopSerial
